import Mathlib

/-
Verification development for the thermostat-telemetry-reader ingest core.

The Go source is shallowly embedded: pure functions become Lean functions,
machine integers become Nat/Int, float64 temperature values become rationals,
Go maps become association lists, and fallible calls return Option/Except.
Each section names the Go file and function it embeds.
-/

namespace TTR

/-- UTC wall-clock timestamp with second precision; models a Go time.Time
value that the normalizer has already converted to UTC.  The zero value
models Go's zero time.Time. -/
structure Timestamp where
  year : Nat
  month : Nat
  day : Nat
  hour : Nat
  minute : Nat
  second : Nat
deriving DecidableEq, Repr

/-- Zero instant, the Go time.Time zero value. -/
def Timestamp.zero : Timestamp := ⟨0, 0, 0, 0, 0, 0⟩

/-- Model of time.Time.IsZero for the timestamp model. -/
def Timestamp.isZero (t : Timestamp) : Bool := t == Timestamp.zero

/-- Model of a Go error value: a plain message (errors.New), a wrapping error
built by fmt.Errorf with a %w verb (its message is the prefix followed by
": " and the inner message), or context.Canceled. -/
inductive GoErr where
  | msg (s : String)
  | wrap (pre : String) (inner : GoErr)
  | canceled
deriving DecidableEq, Repr

/-- Message of a Go error, as returned by the Error() method. -/
def GoErr.message : GoErr → String
  | .msg s => s
  | .wrap pre inner => pre ++ ": " ++ inner.message
  | .canceled => "context canceled"

/-- Whether target appears in the errors.Unwrap chain of e (the relation
checked by errors.Is for plain wrapped errors). -/
def errInChain (target : GoErr) : GoErr → Bool
  | .msg s => GoErr.msg s == target
  | .wrap pre inner => (GoErr.wrap pre inner == target) || errInChain target inner
  | .canceled => GoErr.canceled == target

/-- Model of anyMatch in pkg/retry (backoff.go): scans every offset of s for
an exact, case-sensitive occurrence of sub. -/
def anyMatch : List Char → List Char → Bool
  | [], sub => sub.isPrefixOf ([] : List Char)
  | s@(_ :: t), sub => sub.isPrefixOf s || anyMatch t sub

/-- Model of the contains helper in pkg/retry (backoff.go).  Despite the
comment in the source calling it case-insensitive, it is an exact,
case-sensitive substring check. -/
def containsGo (s sub : String) : Bool :=
  decide (s.data.length ≥ sub.data.length) &&
    (s == sub || (decide (s.data.length > sub.data.length) && anyMatch s.data sub.data))

/-- The closed list of retriable message fragments in IsRetriable
(pkg/retry backoff.go). -/
def retriableMessages : List String :=
  ["timeout", "connection refused", "connection reset",
   "temporary failure", "no such host", "TLS handshake timeout"]

/-- Model of IsRetriable in pkg/retry (backoff.go): a nil error is not
retriable; otherwise the error message is scanned for each fragment of the
closed list. -/
def IsRetriable : Option GoErr → Bool
  | none => false
  | some e => retriableMessages.any (fun m => containsGo e.message m)

/-- Recursive core of the retry loop of Do in pkg/retry (backoff.go).
fn gives the outcome of the n-th call of the operation (0-based, none means
the call returned a nil error); cancelWait says whether the context is
cancelled during the wait that precedes attempt n.  The fuel argument is the
number of loop iterations left; attempts count up as in the Go loop.
Returns (number of calls made, final outcome), none meaning success. -/
def doAux (fn : Nat → Option GoErr) (cancelWait : Nat → Bool) :
    Nat → Nat → Option GoErr → Nat × Option GoErr
  | 0, _, last => (0, some (.wrap "max retries exceeded" (last.getD (.msg ""))))
  | rem + 1, attempt, _ =>
    if attempt > 0 && cancelWait attempt then
      (0, some (.wrap "retry cancelled" .canceled))
    else
      match fn attempt with
      | none => (1, none)
      | some e =>
        if IsRetriable (some e) then
          let r := doAux fn cancelWait rem (attempt + 1) (some e)
          (r.1 + 1, r.2)
        else
          (1, some e)

/-- Model of Do in pkg/retry (backoff.go): runs the operation up to
maxRetries + 1 times, stopping on success, on a non-retriable error, or on
cancellation during a between-attempts wait. -/
def DoGo (maxRetries : Nat) (cancelWait : Nat → Bool) (fn : Nat → Option GoErr) :
    Nat × Option GoErr :=
  doAux fn cancelWait (maxRetries + 1) 0 none

/-- A context that is never cancelled. -/
def noCancel : Nat → Bool := fun _ => false

/-- Concrete operation whose first call fails with a retriable error and
whose second call fails with a non-retriable one. -/
def fnStops : Nat → Option GoErr := fun n =>
  if n = 0 then some (.msg "temporary failure in name resolution")
  else if n = 1 then some (.msg "invalid input")
  else none

/-- Concrete operation that always fails with a retriable error. -/
def fnRefused : Nat → Option GoErr := fun _ => some (.msg "connection refused")

/-- Context cancelled during the wait before attempt 1. -/
def cancelAt1 : Nat → Bool := fun n => n == 1

/-! SHA-256 (crypto/sha256, called by the ID generator in pkg/model).
Bytes are Nat values below 256; 32-bit words are Nat values reduced mod 2^32. -/

/-- The constant 2^32, the modulus of 32-bit word arithmetic. -/
def w32 : Nat := 4294967296

/-- Right rotation of a 32-bit word by k bits. -/
def rotr (k n : Nat) : Nat := ((n >>> k) ||| (n <<< (32 - k))) % w32

/-- Big-endian byte expansion of n into k bytes. -/
def beBytes (k : Nat) (n : Nat) : List Nat :=
  (List.range k).map (fun i => (n >>> (8 * (k - 1 - i))) % 256)

/-- Group bytes into big-endian 32-bit words. -/
def bytesToWords : List Nat → List Nat
  | b0 :: b1 :: b2 :: b3 :: rest => (((b0 * 256 + b1) * 256 + b2) * 256 + b3) :: bytesToWords rest
  | _ => []

/-- SHA-256 padding: a 0x80 byte, zeros up to 56 mod 64, and the bit length
as eight big-endian bytes. -/
def padMessage (msg : List Nat) : List Nat :=
  let len := msg.length
  let padZeros := (120 - (len + 1) % 64) % 64
  msg ++ [128] ++ List.replicate padZeros 0 ++ beBytes 8 (len * 8)

/-- Split a word list into n blocks of 16 words. -/
def takeBlocks : Nat → List Nat → List (List Nat)
  | 0, _ => []
  | n + 1, ws => ws.take 16 :: takeBlocks n (ws.drop 16)

/-- The 64 SHA-256 round constants. -/
def sha256K : List Nat :=
  [1116352408, 1899447441, 3049323471, 3921009573, 961987163, 1508970993, 2453635748, 2870763221,
   3624381080, 310598401, 607225278, 1426881987, 1925078388, 2162078206, 2614888103, 3248222580,
   3835390401, 4022224774, 264347078, 604807628, 770255983, 1249150122, 1555081692, 1996064986,
   2554220882, 2821834349, 2952996808, 3210313671, 3336571891, 3584528711, 113926993, 338241895,
   666307205, 773529912, 1294757372, 1396182291, 1695183700, 1986661051, 2177026350, 2456956037,
   2730485921, 2820302411, 3259730800, 3345764771, 3516065817, 3600352804, 4094571909, 275423344,
   430227734, 506948616, 659060556, 883997877, 958139571, 1322822218, 1537002063, 1747873779,
   1955562222, 2024104815, 2227730452, 2361852424, 2428436474, 2756734187, 3204031479, 3329325298]

/-- Eight 32-bit hash words. -/
structure Hash8 where
  h0 : Nat
  h1 : Nat
  h2 : Nat
  h3 : Nat
  h4 : Nat
  h5 : Nat
  h6 : Nat
  h7 : Nat
deriving Repr

/-- The SHA-256 initial hash value. -/
def sha256Init : Hash8 :=
  ⟨1779033703, 3144134277, 1013904242, 2773480762, 1359893119, 2600822924, 528734635, 1541459225⟩

/-- Extend a 16-word block to the 64-word message schedule. -/
def schedule (block : List Nat) : Array Nat :=
  (List.range 48).foldl (fun w i =>
    let t := i + 16
    let x15 := w.getD (t - 15) 0
    let x2 := w.getD (t - 2) 0
    let s0 := (rotr 7 x15) ^^^ (rotr 18 x15) ^^^ (x15 >>> 3)
    let s1 := (rotr 17 x2) ^^^ (rotr 19 x2) ^^^ (x2 >>> 10)
    w.push ((w.getD (t - 16) 0 + s0 + w.getD (t - 7) 0 + s1) % w32)) block.toArray

/-- One SHA-256 compression step over a 16-word block. -/
def compressBlock (st : Hash8) (block : List Nat) : Hash8 :=
  let w := schedule block
  let f := (List.range 64).foldl (fun (s : Hash8) i =>
    let s1 := (rotr 6 s.h4) ^^^ (rotr 11 s.h4) ^^^ (rotr 25 s.h4)
    let ch := (s.h4 &&& s.h5) ^^^ ((s.h4 ^^^ (w32 - 1)) &&& s.h6)
    let temp1 := (s.h7 + s1 + ch + sha256K.getD i 0 + w.getD i 0) % w32
    let s0 := (rotr 2 s.h0) ^^^ (rotr 13 s.h0) ^^^ (rotr 22 s.h0)
    let maj := (s.h0 &&& s.h1) ^^^ (s.h0 &&& s.h2) ^^^ (s.h1 &&& s.h2)
    let temp2 := (s0 + maj) % w32
    ⟨(temp1 + temp2) % w32, s.h0, s.h1, s.h2, (s.h3 + temp1) % w32, s.h4, s.h5, s.h6⟩) st
  ⟨(st.h0 + f.h0) % w32, (st.h1 + f.h1) % w32, (st.h2 + f.h2) % w32, (st.h3 + f.h3) % w32,
   (st.h4 + f.h4) % w32, (st.h5 + f.h5) % w32, (st.h6 + f.h6) % w32, (st.h7 + f.h7) % w32⟩

/-- SHA-256 digest of a byte list, as 32 bytes (crypto/sha256 Sum256). -/
def sha256 (msg : List Nat) : List Nat :=
  let ws := bytesToWords (padMessage msg)
  let final := (takeBlocks (ws.length / 16) ws).foldl compressBlock sha256Init
  [final.h0, final.h1, final.h2, final.h3, final.h4, final.h5, final.h6, final.h7].flatMap (beBytes 4)

/-- Lowercase hexadecimal digit for a value below 16, as printed by the %x
verb: 0-9 then a-f. -/
def hexDigit (n : Nat) : Char :=
  if n < 10 then Char.ofNat (48 + n) else Char.ofNat (97 + (n - 10))

/-- Two lowercase hex characters of one byte. -/
def hexByte (b : Nat) : List Char := [hexDigit (b / 16), hexDigit (b % 16)]

/-- Lowercase hex characters of a byte list, as produced by fmt.Sprintf
with the %x verb on a byte array. -/
def goHex (bs : List Nat) : List Char := bs.flatMap hexByte

/-- UTF-8 bytes of a string, the input Go hands to sha256.Sum256. -/
def utf8Bytes (s : String) : List Nat := s.toUTF8.toList.map (fun b => b.toNat)

/-! Timestamp formatting.  The Go layout string used by the ID generator,
2006-01-02T15:04:05Z, renders the wall-clock fields followed by a literal Z. -/

/-- Two-digit zero-padded decimal. -/
def pad2 (n : Nat) : String := if n < 10 then "0" ++ toString n else toString n

/-- Four-digit zero-padded decimal. -/
def pad4 (n : Nat) : String :=
  if n < 10 then "000" ++ toString n
  else if n < 100 then "00" ++ toString n
  else if n < 1000 then "0" ++ toString n
  else toString n

/-- Model of t.Format(timestampFormat) in pkg/model id_generator.go: the
layout 2006-01-02T15:04:05Z prints YYYY-MM-DDThh:mm:ss followed by a
literal Z. -/
def formatTimestamp (t : Timestamp) : String :=
  pad4 t.year ++ "-" ++ pad2 t.month ++ "-" ++ pad2 t.day ++ "T" ++
    pad2 t.hour ++ ":" ++ pad2 t.minute ++ ":" ++ pad2 t.second ++ "Z"

/-! ASCII lowercasing, modelling strings.ToLower on the ASCII identifiers
this system receives. -/

/-- ASCII lowercase of one character. -/
def charLowerGo (c : Char) : Char :=
  if c.toNat ≥ 65 && c.toNat ≤ 90 then Char.ofNat (c.toNat + 32) else c

/-- Model of strings.ToLower for the ASCII strings handled here. -/
def toLowerGo (s : String) : String := String.mk (s.data.map charLowerGo)

/-! JSON values and the canonical encoding (encoding/json), used by the ID
generator to serialize a document before hashing.  encoding/json emits
struct fields in declaration order, omits omitempty fields that are nil,
empty strings or empty maps, and sorts map keys. -/

/-- Model of a Go JSON value. -/
inductive Json where
  | null
  | bool (b : Bool)
  | num (q : ℚ)
  | str (s : String)
  | arr (items : List Json)
  | obj (fields : List (String × Json))
deriving Repr

/-- Decimal digits of the fractional part of r/d by long division, with
bounded fuel; models the decimal rendering encoding/json applies to the
short decimal temperature values carried by these documents. -/
def fracDigits (d : Nat) : Nat → Nat → List Char
  | 0, _ => []
  | _, 0 => []
  | fuel + 1, r =>
    let r10 := r * 10
    Char.ofNat (48 + r10 / d) :: fracDigits d fuel (r10 % d)

/-- Decimal rendering of a rational number. -/
def renderQ (q : ℚ) : String :=
  let sign := if q < 0 then "-" else ""
  let n := q.num.natAbs
  let fr := fracDigits q.den 17 (n % q.den)
  sign ++ toString (n / q.den) ++ (if fr.isEmpty then "" else "." ++ String.mk fr)

/-- JSON escaping of one character (quotes and backslashes). -/
def escapeChar (c : Char) : List Char :=
  if c = '"' then ['\\', '"']
  else if c = '\\' then ['\\', '\\']
  else [c]

/-- A JSON string literal with its quotes. -/
def quoteStr (s : String) : String :=
  "\"" ++ String.mk (s.data.flatMap escapeChar) ++ "\""

mutual

/-- Serialization of a JSON value, modelling json.Marshal output. -/
def renderJson : Json → String
  | .null => "null"
  | .bool true => "true"
  | .bool false => "false"
  | .num q => renderQ q
  | .str s => quoteStr s
  | .arr items => "[" ++ renderJsonList items ++ "]"
  | .obj fields => "\x7b" ++ renderJsonFields fields ++ "\x7d"

/-- Comma-separated serialization of array items. -/
def renderJsonList : List Json → String
  | [] => ""
  | [x] => renderJson x
  | x :: xs => renderJson x ++ "," ++ renderJsonList xs

/-- Comma-separated serialization of object fields. -/
def renderJsonFields : List (String × Json) → String
  | [] => ""
  | [f] => quoteStr f.1 ++ ":" ++ renderJson f.2
  | f :: fs => quoteStr f.1 ++ ":" ++ renderJson f.2 ++ "," ++ renderJsonFields fs

end

/-- Sort map entries by key, as json.Marshal does for Go maps. -/
def sortPairs {α : Type} (l : List (String × α)) : List (String × α) :=
  l.mergeSort (fun a b => a.1 ≤ b.1)

/-! Canonical document model (pkg/model canonical.go). -/

/-- Model of model.State. -/
structure State where
  mode : String
  setHeatC : Option ℚ
  setCoolC : Option ℚ
  climate : String
deriving DecidableEq, Repr

/-- Model of model.EventInfo. -/
structure EventInfo where
  kind : String
  name : String
  data : Option (List (String × Json))
deriving Repr

/-- Model of model.Runtime5m. -/
structure Runtime5m where
  type : String
  thermostatID : String
  thermostatName : String
  householdID : String
  eventTime : Timestamp
  mode : String
  climate : String
  setHeatC : Option ℚ
  setCoolC : Option ℚ
  avgTempC : Option ℚ
  outdoorTempC : Option ℚ
  outdoorHumidity : Option Int
  equipment : Option (List (String × Bool))
  sensors : Option (List (String × ℚ))
  provider : Option (List (String × Json))
deriving Repr

/-- Model of model.Transition. -/
structure Transition where
  type : String
  eventTime : Timestamp
  thermostatID : String
  thermostatName : String
  prev : State
  next : State
  event : EventInfo
  provider : Option (List (String × Json))
deriving Repr

/-- Model of model.DeviceSnapshot. -/
structure DeviceSnapshot where
  type : String
  collectedAt : Timestamp
  thermostatID : String
  thermostatName : String
  program : Option Json
  eventsActive : Option (List Json)
  provider : Option (List (String × Json))
deriving Repr

/-- Model of model.ThermostatRef. -/
structure ThermostatRef where
  id : String
  name : String
  provider : String
  householdID : String
deriving DecidableEq, Repr

/-- Model of model.RuntimeRow, the provider-shaped runtime input. -/
structure RuntimeRow where
  thermostatRef : ThermostatRef
  eventTime : Timestamp
  mode : String
  climate : String
  setHeatC : Option ℚ
  setCoolC : Option ℚ
  avgTempC : Option ℚ
  outdoorTempC : Option ℚ
  outdoorHumidity : Option Int
  equipment : Option (List (String × Bool))
  sensors : Option (List (String × ℚ))
deriving Repr

/-- Model of model.Snapshot, the provider-shaped snapshot input. -/
structure Snapshot where
  thermostatRef : ThermostatRef
  collectedAt : Timestamp
  program : Option Json
  eventsActive : Option (List Json)
deriving Repr

/-! JSON encoders for the document structs, mirroring the json struct tags
of pkg/model canonical.go: field order is declaration order, omitempty
fields vanish when nil or empty, and map keys are sorted. -/

/-- Field for a required string. -/
def strField (name s : String) : List (String × Json) := [(name, .str s)]

/-- Field for an omitempty string: omitted when empty. -/
def omitStrField (name s : String) : List (String × Json) :=
  if s = "" then [] else [(name, .str s)]

/-- Field for an omitempty float64 pointer: omitted when nil. -/
def optNumField (name : String) : Option ℚ → List (String × Json)
  | none => []
  | some q => [(name, .num q)]

/-- Field for an omitempty int pointer: omitted when nil. -/
def optIntField (name : String) : Option Int → List (String × Json)
  | none => []
  | some i => [(name, .num (i : ℚ))]

/-- Field for an omitempty map[string]bool: omitted when nil or empty. -/
def boolMapField (name : String) : Option (List (String × Bool)) → List (String × Json)
  | none => []
  | some l =>
    if l.isEmpty then []
    else [(name, .obj ((sortPairs l).map (fun p => (p.1, Json.bool p.2))))]

/-- Field for an omitempty map[string]float64: omitted when nil or empty. -/
def numMapField (name : String) : Option (List (String × ℚ)) → List (String × Json)
  | none => []
  | some l =>
    if l.isEmpty then []
    else [(name, .obj ((sortPairs l).map (fun p => (p.1, Json.num p.2))))]

/-- Field for an omitempty map[string]any: omitted when nil or empty. -/
def jsonMapField (name : String) : Option (List (String × Json)) → List (String × Json)
  | none => []
  | some l => if l.isEmpty then [] else [(name, .obj (sortPairs l))]

/-- Field for an omitempty interface value: omitted when nil. -/
def optJsonField (name : String) : Option Json → List (String × Json)
  | none => []
  | some j => [(name, j)]

/-- Field for an omitempty slice: omitted when nil. -/
def optArrField (name : String) : Option (List Json) → List (String × Json)
  | none => []
  | some l => [(name, .arr l)]

/-- JSON encoding of a model.State value. -/
def encodeState (s : State) : Json :=
  .obj (strField "mode" s.mode ++ optNumField "set_heat_c" s.setHeatC ++
    optNumField "set_cool_c" s.setCoolC ++ strField "climate" s.climate)

/-- JSON encoding of a model.EventInfo value. -/
def encodeEventInfo (e : EventInfo) : Json :=
  .obj (strField "kind" e.kind ++ omitStrField "name" e.name ++ jsonMapField "data" e.data)

/-- JSON encoding of a model.Runtime5m value. -/
def encodeRuntime5m (d : Runtime5m) : Json :=
  .obj (strField "type" d.type ++ strField "thermostat_id" d.thermostatID ++
    strField "thermostat_name" d.thermostatName ++ omitStrField "household_id" d.householdID ++
    [("event_time", .str (formatTimestamp d.eventTime))] ++ strField "mode" d.mode ++
    strField "climate" d.climate ++ optNumField "set_heat_c" d.setHeatC ++
    optNumField "set_cool_c" d.setCoolC ++ optNumField "avg_temp_c" d.avgTempC ++
    optNumField "outdoor_temp_c" d.outdoorTempC ++
    optIntField "outdoor_humidity_pct" d.outdoorHumidity ++
    boolMapField "equip" d.equipment ++ numMapField "sensors" d.sensors ++
    jsonMapField "provider" d.provider)

/-- JSON encoding of a model.Transition value. -/
def encodeTransition (t : Transition) : Json :=
  .obj (strField "type" t.type ++ [("event_time", .str (formatTimestamp t.eventTime))] ++
    strField "thermostat_id" t.thermostatID ++ strField "thermostat_name" t.thermostatName ++
    [("prev", encodeState t.prev), ("next", encodeState t.next),
     ("event", encodeEventInfo t.event)] ++ jsonMapField "provider" t.provider)

/-- JSON encoding of a model.DeviceSnapshot value. -/
def encodeDeviceSnapshot (d : DeviceSnapshot) : Json :=
  .obj (strField "type" d.type ++ [("collected_at", .str (formatTimestamp d.collectedAt))] ++
    strField "thermostat_id" d.thermostatID ++ strField "thermostat_name" d.thermostatName ++
    optJsonField "program" d.program ++ optArrField "events_active" d.eventsActive ++
    jsonMapField "provider" d.provider)

/-- JSON encoding of a model.RuntimeRow value (vendor passthrough payload). -/
def encodeRuntimeRow (r : RuntimeRow) : Json :=
  .obj ([("thermostat_ref", .obj (strField "id" r.thermostatRef.id ++
      strField "name" r.thermostatRef.name ++ strField "provider" r.thermostatRef.provider ++
      omitStrField "household_id" r.thermostatRef.householdID))] ++
    [("event_time", .str (formatTimestamp r.eventTime))] ++ strField "mode" r.mode ++
    strField "climate" r.climate ++ optNumField "set_heat_c" r.setHeatC ++
    optNumField "set_cool_c" r.setCoolC ++ optNumField "avg_temp_c" r.avgTempC ++
    optNumField "outdoor_temp_c" r.outdoorTempC ++
    optIntField "outdoor_humidity_pct" r.outdoorHumidity ++
    boolMapField "equip" r.equipment ++ numMapField "sensors" r.sensors)

/-- JSON encoding of a model.Snapshot value (vendor passthrough payload). -/
def encodeSnapshot (s : Snapshot) : Json :=
  .obj ([("thermostat_ref", .obj (strField "id" s.thermostatRef.id ++
      strField "name" s.thermostatRef.name ++ strField "provider" s.thermostatRef.provider ++
      omitStrField "household_id" s.thermostatRef.householdID))] ++
    [("collected_at", .str (formatTimestamp s.collectedAt))] ++
    optJsonField "program" s.program ++ optArrField "events_active" s.eventsActive)

/-! ID generator (pkg/model id_generator.go, the copy in src/unnamed/part_004). -/

/-- Model of hashDocument: json.Marshal the document, SHA-256 it, print it
with the %x verb and keep the first 16 characters. -/
def hashDocument (docJson : Json) : String :=
  String.mk ((goHex (sha256 (utf8Bytes (renderJson docJson)))).take 16)

/-- Model of hashTransition: hash the map with keys prev and next only
(json.Marshal sorts the two keys, so next precedes prev). -/
def hashTransition (prev next : State) : String :=
  hashDocument (.obj (sortPairs [("prev", encodeState prev), ("next", encodeState next)]))

/-- Model of IDGenerator.GenerateRuntime5mID: nil gives the errNilDocument
error, otherwise thermostat_id:event_time:type:hash(whole document). -/
def GenerateRuntime5mID : Option Runtime5m → Except GoErr String
  | none => .error (.msg "document is nil")
  | some doc =>
    .ok (doc.thermostatID ++ ":" ++ formatTimestamp doc.eventTime ++ ":" ++ doc.type ++ ":" ++
      hashDocument (encodeRuntime5m doc))

/-- Model of IDGenerator.GenerateTransitionID: nil gives the errNilDocument
error, otherwise thermostat_id:event_time:hash(prev,next). -/
def GenerateTransitionID : Option Transition → Except GoErr String
  | none => .error (.msg "document is nil")
  | some doc =>
    .ok (doc.thermostatID ++ ":" ++ formatTimestamp doc.eventTime ++ ":" ++
      hashTransition doc.prev doc.next)

/-- Model of IDGenerator.GenerateDeviceSnapshotID: nil gives the
errNilDocument error, otherwise thermostat_id:collected_at with no hash. -/
def GenerateDeviceSnapshotID : Option DeviceSnapshot → Except GoErr String
  | none => .error (.msg "document is nil")
  | some doc => .ok (doc.thermostatID ++ ":" ++ formatTimestamp doc.collectedAt)

/-! Normalizer (internal/core/normalizer.go).  The timezone held by the
Normalizer does not influence any of the functions below; times are already
UTC in this model, so convertToUTC is the identity and zero maps to zero. -/

/-- Model of Normalizer.convertToUTC. -/
def convertToUTC (t : Timestamp) : Timestamp := t

/-- Model of Normalizer.convertTempToCelsius: the source passes the value
through unchanged (conversion is the provider's responsibility). -/
def convertTempToCelsius (t : Option ℚ) : Option ℚ := t

/-- Model of Normalizer.normalizeMode.  The Go switch on the lowercased
input is a sequential comparison chain; the default branch returns the
lowercased input itself. -/
def normalizeMode (mode : String) : String :=
  if mode = "" then "off"
  else
    let modeLower := toLowerGo mode
    if modeLower = "heat" ∨ modeLower = "heating" then "heat"
    else if modeLower = "cool" ∨ modeLower = "cooling" then "cool"
    else if modeLower = "auto" ∨ modeLower = "automatic" then "auto"
    else if modeLower = "off" ∨ modeLower = "disabled" then "off"
    else modeLower

/-- Model of Normalizer.normalizeClimate: case-preserving match over common
casings, defaulting to the original string. -/
def normalizeClimate (climate : String) : String :=
  if climate = "" then "Home"
  else if climate = "home" ∨ climate = "Home" ∨ climate = "HOME" then "Home"
  else if climate = "away" ∨ climate = "Away" ∨ climate = "AWAY" then "Away"
  else if climate = "sleep" ∨ climate = "Sleep" ∨ climate = "SLEEP" ∨ climate = "sleeping" then "Sleep"
  else if climate = "vacation" ∨ climate = "Vacation" ∨ climate = "VACATION" then "Vacation"
  else climate

/-- Model of Normalizer.normalizeEquipmentKey: accepted spelling variants
are renamed to the canonical key, unknown keys are returned unchanged. -/
def normalizeEquipmentKey (key : String) : String :=
  if key = "compHeat1" ∨ key = "compheat1" ∨ key = "comp_heat_1" then "compHeat1"
  else if key = "compHeat2" ∨ key = "compheat2" ∨ key = "comp_heat_2" then "compHeat2"
  else if key = "compCool1" ∨ key = "compcool1" ∨ key = "comp_cool_1" then "compCool1"
  else if key = "compCool2" ∨ key = "compcool2" ∨ key = "comp_cool_2" then "compCool2"
  else if key = "fan" ∨ key = "Fan" ∨ key = "FAN" then "fan"
  else key

/-- Go map assignment on an association list: overwrite the key if present,
append it otherwise. -/
def setAssoc {α : Type} (k : String) (v : α) : List (String × α) → List (String × α)
  | [] => [(k, v)]
  | (k0, v0) :: rest => if k0 = k then (k0, v) :: rest else (k0, v0) :: setAssoc k v rest

/-- Go map read with the zero-value default. -/
def lookupAssoc {α : Type} (l : List (String × α)) (k : String) : Option α :=
  (l.find? (fun p => p.1 == k)).map (fun p => p.2)

/-- Go map read of a bool map: a missing key reads as false. -/
def lookupBoolD (l : List (String × Bool)) (k : String) : Bool :=
  (lookupAssoc l k).getD false

/-- Model of Normalizer.normalizeEquipment: nil stays nil, otherwise each
entry is re-inserted under its normalized key. -/
def normalizeEquipment : Option (List (String × Bool)) → Option (List (String × Bool))
  | none => none
  | some l => some (l.foldl (fun acc p => setAssoc (normalizeEquipmentKey p.1) p.2 acc) [])

/-- Model of Normalizer.normalizeSensors: nil stays nil, otherwise each
entry is re-inserted with its temperature passed through. -/
def normalizeSensors : Option (List (String × ℚ)) → Option (List (String × ℚ))
  | none => none
  | some l =>
    some (l.foldl (fun acc p =>
      setAssoc p.1 ((convertTempToCelsius (some p.2)).getD p.2) acc) [])

/-- Model of Normalizer.createProviderData: a one-entry map from the
provider name to the opaque vendor payload. -/
def createProviderData (provider : String) (data : Json) : List (String × Json) :=
  [(provider, data)]

/-- Model of Normalizer.normalizeState. -/
def normalizeState (s : State) : State :=
  { mode := normalizeMode s.mode
    setHeatC := convertTempToCelsius s.setHeatC
    setCoolC := convertTempToCelsius s.setCoolC
    climate := normalizeClimate s.climate }

/-- Model of the contains helper of internal/core/normalizer.go: indexOf is
a case-sensitive offset scan, and contains checks it found an offset. -/
def containsNorm (s sub : String) : Bool := anyMatch s.data sub.data

/-- Model of Normalizer.normalizeEventKind. -/
def normalizeEventKind (kind : String) : String :=
  if kind = "" then "unknown"
  else
    let kindLower := toLowerGo kind
    if kindLower = "hold" ∨ kindLower = "temp_hold" ∨ kindLower = "temporary_hold" then "hold"
    else if kindLower = "vacation" ∨ kindLower = "vacation_hold" then "vacation"
    else if kindLower = "resume" ∨ kindLower = "resume_schedule" then "resume"
    else if kindLower = "schedule" ∨ kindLower = "scheduled" then "schedule"
    else if kindLower = "manual" ∨ kindLower = "manual_override" then "manual"
    else "unknown"

/-- Model of Normalizer.inferEventKindFromName. -/
def inferEventKindFromName (name : String) : String :=
  let nameLower := toLowerGo name
  if containsNorm nameLower "hold" then
    if containsNorm nameLower "vacation" then "vacation" else "hold"
  else if containsNorm nameLower "vacation" then "vacation"
  else if containsNorm nameLower "resume" then "resume"
  else if containsNorm nameLower "schedule" then "schedule"
  else if containsNorm nameLower "manual" then "manual"
  else "unknown"

/-- Model of Normalizer.normalizeEvent. -/
def normalizeEvent (e : EventInfo) : EventInfo :=
  let kind := normalizeEventKind e.kind
  { kind := if kind = "unknown" ∧ e.name ≠ "" then inferEventKindFromName e.name else kind
    name := e.name
    data := e.data }

/-- Model of Normalizer.NormalizeRuntime5m without its Except wrapper; the
source function never returns a non-nil error. -/
def normalizeRuntimeOk (row : RuntimeRow) (provider : String) : Runtime5m :=
  { type := "runtime_5m"
    thermostatID := row.thermostatRef.id
    thermostatName := row.thermostatRef.name
    householdID := row.thermostatRef.householdID
    eventTime := convertToUTC row.eventTime
    mode := normalizeMode row.mode
    climate := normalizeClimate row.climate
    setHeatC := convertTempToCelsius row.setHeatC
    setCoolC := convertTempToCelsius row.setCoolC
    avgTempC := convertTempToCelsius row.avgTempC
    outdoorTempC := convertTempToCelsius row.outdoorTempC
    outdoorHumidity := row.outdoorHumidity
    equipment := normalizeEquipment row.equipment
    sensors := normalizeSensors row.sensors
    provider := some (createProviderData provider (encodeRuntimeRow row)) }

/-- Model of Normalizer.NormalizeRuntime5m (always succeeds). -/
def NormalizeRuntime5m (row : RuntimeRow) (provider : String) : Except GoErr Runtime5m :=
  .ok (normalizeRuntimeOk row provider)

/-- Model of Normalizer.NormalizeTransition. -/
def NormalizeTransition (ref : ThermostatRef) (eventTime : Timestamp)
    (prevState nextState : State) (eventInfo : EventInfo) (provider : String)
    (providerData : Option Json) : Transition :=
  { type := "transition"
    eventTime := convertToUTC eventTime
    thermostatID := ref.id
    thermostatName := ref.name
    prev := normalizeState prevState
    next := normalizeState nextState
    event := normalizeEvent eventInfo
    provider := some (createProviderData provider (providerData.getD Json.null)) }

/-- Model of Normalizer.NormalizeDeviceSnapshot. -/
def NormalizeDeviceSnapshot (s : Snapshot) (provider : String) : DeviceSnapshot :=
  { type := "device_snapshot"
    collectedAt := convertToUTC s.collectedAt
    thermostatID := s.thermostatRef.id
    thermostatName := s.thermostatRef.name
    program := s.program
    eventsActive := s.eventsActive
    provider := some (createProviderData provider (encodeSnapshot s)) }

/-! Transition detection (internal/core/scheduler.go). -/

/-- Model of floatsEqual in internal/core/scheduler.go: nil equals nil, nil
differs from a value, and two values are equal when their distance is below
the tolerance. -/
def floatsEqual (a b : Option ℚ) (tolerance : ℚ) : Bool :=
  match a, b with
  | none, none => true
  | none, some _ => false
  | some _, none => false
  | some x, some y =>
    let diff := x - y
    let d := if diff < 0 then -diff else diff
    decide (d < tolerance)

/-- Model of Scheduler.hasStateChanged with the tolerance constant 0.1. -/
def hasStateChanged (prev current : State) : Bool :=
  if prev.mode ≠ current.mode then true
  else if prev.climate ≠ current.climate then true
  else if !(floatsEqual prev.setHeatC current.setHeatC (1 / 10)) then true
  else if !(floatsEqual prev.setCoolC current.setCoolC (1 / 10)) then true
  else false

/-- Model of Scheduler.inferTransitionKind. -/
def inferTransitionKind (prev current : State) : String :=
  if prev.mode ≠ current.mode then "manual"
  else if prev.climate ≠ current.climate then
    if current.climate = "Away" ∨ current.climate = "Vacation" then "vacation" else "schedule"
  else if !(floatsEqual prev.setHeatC current.setHeatC (1 / 10)) ∨
      !(floatsEqual prev.setCoolC current.setCoolC (1 / 10)) then "hold"
  else "unknown"

/-- The state tuple the scheduler loop extracts from a normalized row. -/
def stateOfRuntime (d : Runtime5m) : State :=
  { mode := d.mode, setHeatC := d.setHeatC, setCoolC := d.setCoolC, climate := d.climate }

/-- Model of model.Doc as handed to Sink.Write. -/
structure Doc where
  id : String
  type : String
  body : Json
deriving Repr

/-- The transition document the scheduler loop emits for one changed pair
of consecutive normalized rows. -/
def transitionDocFor (ref : ThermostatRef) (provider : String) (a b : Runtime5m) : List Doc :=
  let p := stateOfRuntime a
  let c := stateOfRuntime b
  let transition := NormalizeTransition ref b.eventTime p c
    { kind := inferTransitionKind p c, name := "", data := none } provider none
  match GenerateTransitionID (some transition) with
  | .ok tid => [{ id := tid, type := "transition", body := encodeTransition transition }]
  | .error _ => []

/-- Model of the normalize-and-detect loop body of fetchAndProcessRuntime
in internal/core/scheduler.go: each row becomes a runtime_5m document, and a
transition document is appended when the state differs from the previous
row's state under hasStateChanged. -/
def buildRuntimeDocs (ref : ThermostatRef) (provider : String) :
    List RuntimeRow → Option Runtime5m → List Doc
  | [], _ => []
  | row :: rest, prevDoc =>
    match NormalizeRuntime5m row provider with
    | .error _ => buildRuntimeDocs ref provider rest prevDoc
    | .ok canonical =>
      match GenerateRuntime5mID (some canonical) with
      | .error _ => buildRuntimeDocs ref provider rest prevDoc
      | .ok docID =>
        let runtimeDoc : Doc := { id := docID, type := "runtime_5m", body := encodeRuntime5m canonical }
        let transDocs :=
          match prevDoc with
          | some p =>
            if hasStateChanged (stateOfRuntime p) (stateOfRuntime canonical) then
              transitionDocFor ref provider p canonical
            else []
          | none => []
        runtimeDoc :: (transDocs ++ buildRuntimeDocs ref provider rest (some canonical))

/-! Scheduler write path and offset advancement (internal/core/scheduler.go). -/

/-- Offset store contents: one runtime and one snapshot high-watermark per
thermostat id (MemoryOffsetStore's two maps; missing entries read as the
zero time). -/
structure OffsetState where
  runtimeTimes : List (String × Timestamp)
  snapshotTimes : List (String × Timestamp)
deriving Repr

/-- Model of OffsetStore.GetLastRuntimeTime. -/
def getLastRuntimeTime (st : OffsetState) (id : String) : Timestamp :=
  (lookupAssoc st.runtimeTimes id).getD Timestamp.zero

/-- Model of OffsetStore.SetLastRuntimeTime. -/
def setLastRuntimeTime (st : OffsetState) (id : String) (t : Timestamp) : OffsetState :=
  { st with runtimeTimes := setAssoc id t st.runtimeTimes }

/-- Model of OffsetStore.GetLastSnapshotTime. -/
def getLastSnapshotTime (st : OffsetState) (id : String) : Timestamp :=
  (lookupAssoc st.snapshotTimes id).getD Timestamp.zero

/-- Model of OffsetStore.SetLastSnapshotTime. -/
def setLastSnapshotTime (st : OffsetState) (id : String) (t : Timestamp) : OffsetState :=
  { st with snapshotTimes := setAssoc id t st.snapshotTimes }

/-- Outcome of one sink's Write call for the batch: either a transport
error or a WriteResult with success and error counts. -/
inductive SinkOutcome where
  | transportErr (e : GoErr)
  | result (successCount errorCount : Nat) (errors : List String)
deriving Repr

/-- Metric calls the write loop makes on the MetricsCollector. -/
inductive MetricEvent where
  | sinkWrite (successCount : Nat)
  | sinkError
deriving DecidableEq, Repr

/-- Model of Scheduler.writeToAllSinks: an empty batch returns immediately;
otherwise each sink is written in turn, a transport error or a positive
error count records a sink error metric and the loop continues, and the
function returns a nil error in every case. -/
def writeToAllSinks (sinks : List SinkOutcome) (docs : List Doc) :
    List MetricEvent × Option GoErr :=
  if docs.isEmpty then ([], none)
  else
    (sinks.flatMap (fun s =>
      match s with
      | .transportErr _ => [MetricEvent.sinkError]
      | .result sc ec _ =>
        [MetricEvent.sinkWrite sc] ++ (if ec > 0 then [MetricEvent.sinkError] else [])),
     none)

/-- Model of Scheduler.fetchAndProcessRuntime from the GetRuntime call on:
a provider error aborts; an empty row list returns without writing; else
the docs are built, written to all sinks, and the runtime offset is set to
the last row's event time whenever writeToAllSinks reports no error. -/
def fetchAndProcessRuntime (ref : ThermostatRef) (provider : String)
    (getRuntimeResult : Except GoErr (List RuntimeRow)) (sinks : List SinkOutcome)
    (st : OffsetState) : OffsetState × Option GoErr :=
  match getRuntimeResult with
  | .error e => (st, some (.wrap "getting runtime data" e))
  | .ok runtimeData =>
    if runtimeData.isEmpty then (st, none)
    else
      let docs := buildRuntimeDocs ref provider runtimeData none
      match (writeToAllSinks sinks docs).2 with
      | some e => (st, some (.wrap "writing runtime data" e))
      | none =>
        (setLastRuntimeTime st ref.id
          ((runtimeData.getLast?.map (fun r => r.eventTime)).getD Timestamp.zero), none)

/-- Model of Scheduler.fetchAndProcessSnapshot: a provider error aborts;
else the snapshot is normalized, given its ID, written to all sinks, and
the snapshot offset is set to the snapshot's collection time whenever
writeToAllSinks reports no error. -/
def fetchAndProcessSnapshot (ref : ThermostatRef) (provider : String)
    (getSnapshotResult : Except GoErr Snapshot) (sinks : List SinkOutcome)
    (st : OffsetState) : OffsetState × Option GoErr :=
  match getSnapshotResult with
  | .error e => (st, some (.wrap "getting snapshot" e))
  | .ok snapshot =>
    let canonical := NormalizeDeviceSnapshot snapshot provider
    match GenerateDeviceSnapshotID (some canonical) with
    | .error e => (st, some (.wrap "generating document ID for device_snapshot" e))
    | .ok docID =>
      let doc : Doc := { id := docID, type := "device_snapshot", body := encodeDeviceSnapshot canonical }
      match (writeToAllSinks sinks [doc]).2 with
      | some e => (st, some (.wrap "writing snapshot" e))
      | none => (setLastSnapshotTime st ref.id snapshot.collectedAt, none)

/-! Health checker (internal/core/health.go). -/

/-- Model of a context: only the deadline matters to the health checks. -/
structure Ctx where
  timeoutSeconds : Option Nat
deriving DecidableEq, Repr

/-- Model of context.WithTimeout: the child context carries the 5-second
deadline the health check installs (strictly tighter than any request
deadline in scope here). -/
def withTimeout (_parent : Ctx) (seconds : Nat) : Ctx :=
  { timeoutSeconds := some seconds }

/-- Model of a sink as the health checker sees it: a name and the outcome
of Open under a given context. -/
structure SinkModel where
  name : String
  openResult : Ctx → Option GoErr

/-- Model of a provider as the health checker sees it. -/
structure ProviderModel where
  name : String
  isTokenValid : Bool
  refreshResult : Option GoErr
  listResult : Option GoErr

/-- Model of core.CheckResult (the duration and last-checked wall-clock
fields are not modelled). -/
structure CheckResult where
  status : String
  message : String
deriving DecidableEq, Repr

/-- Model of HealthChecker.checkSink in internal/core/health.go: Open is
called under a context with a 5-second timeout; an error is a fail, success
is a pass. -/
def checkSink (baseCtx : Ctx) (sink : SinkModel) : CheckResult :=
  let checkCtx := withTimeout baseCtx 5
  match sink.openResult checkCtx with
  | some e => { status := "fail", message := "Sink connectivity failed: " ++ e.message }
  | none => { status := "pass", message := "Sink is healthy" }

/-- Model of HealthChecker.checkProvider in internal/core/health.go. -/
def checkProvider (p : ProviderModel) : CheckResult :=
  if !p.isTokenValid ∧ p.refreshResult.isSome then
    { status := "fail",
      message := "Authentication failed: " ++ ((p.refreshResult.map GoErr.message).getD "") }
  else
    match p.listResult with
    | some e => { status := "warn", message := "Provider connectivity issue: " ++ e.message }
    | none => { status := "pass", message := "Provider is healthy" }

/-- Model of HealthChecker.CheckHealth: one check per provider under key
provider_<name>, then one per sink under key sink_<name>. -/
def CheckHealth (baseCtx : Ctx) (providers : List ProviderModel) (sinks : List SinkModel) :
    List (String × CheckResult) :=
  providers.map (fun p => ("provider_" ++ p.name, checkProvider p)) ++
    sinks.map (fun s => ("sink_" ++ s.name, checkSink baseCtx s))

/-- Model of the overall-status fold of CheckHealth: any fail makes the
whole unhealthy, otherwise any warn makes it degraded. -/
def overallStatus (checks : List (String × CheckResult)) : String :=
  if checks.any (fun c => c.2.status == "fail") then "unhealthy"
  else if checks.any (fun c => c.2.status == "warn") then "degraded"
  else "healthy"

/-! Specification-side definitions, written from the spec's words, to be
compared with the source-derived functions above. -/

/-- The canonical mode values of the spec. -/
def canonicalModes : List String := ["heat", "cool", "auto", "off"]

/-- The closed equipment key set of the spec. -/
def closedEquipmentKeys : List String :=
  ["compHeat1", "compHeat2", "compCool1", "compCool2", "fan"]

/-- The accepted equipment spelling variants listed by the spec. -/
def equipmentVariants : List String :=
  ["compHeat1", "compheat1", "comp_heat_1", "compHeat2", "compheat2", "comp_heat_2",
   "compCool1", "compcool1", "comp_cool_1", "compCool2", "compcool2", "comp_cool_2",
   "fan", "Fan", "FAN"]

/-- Spec change rule for one optional setpoint: nil against nil is no
change, nil against a value is a change, and two values changed when they
differ by at least 0.1 degrees. -/
def setpointChangedSpec (a b : Option ℚ) : Bool :=
  match a, b with
  | none, none => false
  | none, some _ => true
  | some _, none => true
  | some x, some y => decide (|x - y| ≥ 1 / 10)

/-- Spec change predicate over state tuples: mode differs, or climate
differs, or either setpoint changed under the 0.1-degree rule. -/
def specStateChanged (a b : State) : Bool :=
  a.mode != b.mode || a.climate != b.climate ||
    setpointChangedSpec a.setHeatC b.setHeatC || setpointChangedSpec a.setCoolC b.setCoolC

/-- Spec kind inference, written from the ordered rules of the spec: mode
change is manual; else a climate change is vacation when the new climate is
Away or Vacation and schedule otherwise; else a setpoint-only change is
hold; else unknown. -/
def specInferKind (prev current : State) : String :=
  if prev.mode ≠ current.mode then "manual"
  else if prev.climate ≠ current.climate then
    if current.climate ∈ (["Away", "Vacation"] : List String) then "vacation" else "schedule"
  else if setpointChangedSpec prev.setHeatC current.setHeatC ∨
      setpointChangedSpec prev.setCoolC current.setCoolC then "hold"
  else "unknown"

/-- Amended mode mapping, written from the spec's table with the default
row corrected to what the source does: recognized rows map to canonical
values, the empty string maps to off, and every other input is lowercased
and preserved verbatim. -/
def specModeMap (mode : String) : String :=
  if mode = "" then "off"
  else if toLowerGo mode ∈ (["heat", "heating"] : List String) then "heat"
  else if toLowerGo mode ∈ (["cool", "cooling"] : List String) then "cool"
  else if toLowerGo mode ∈ (["auto", "automatic"] : List String) then "auto"
  else if toLowerGo mode ∈ (["off", "disabled"] : List String) then "off"
  else toLowerGo mode

/-! Concrete inputs used by witnesses, counterexamples and the code_bug
evaluation. -/

/-- A concrete thermostat reference. -/
def exRef : ThermostatRef := ⟨"th1", "Living Room", "ecobee", ""⟩

/-- A concrete earlier instant. -/
def exT0 : Timestamp := ⟨2024, 6, 1, 12, 0, 0⟩

/-- A concrete later instant. -/
def exT1 : Timestamp := ⟨2024, 6, 1, 12, 5, 0⟩

/-- A concrete runtime row with no setpoints or sensors. -/
def exRow1 : RuntimeRow :=
  { thermostatRef := exRef, eventTime := exT1, mode := "heat", climate := "Home"
    setHeatC := none, setCoolC := none, avgTempC := none, outdoorTempC := none
    outdoorHumidity := none, equipment := none, sensors := none }

/-- A concrete runtime row whose mode is not in any mapping table row. -/
def exRowEco : RuntimeRow :=
  { thermostatRef := exRef, eventTime := exT1, mode := "eco", climate := "Home"
    setHeatC := none, setCoolC := none, avgTempC := none, outdoorTempC := none
    outdoorHumidity := none, equipment := none, sensors := none }

/-- A concrete runtime row whose equipment map has a key outside the
closed set and outside the accepted variants. -/
def exRowAux : RuntimeRow :=
  { thermostatRef := exRef, eventTime := exT1, mode := "heat", climate := "Home"
    setHeatC := none, setCoolC := none, avgTempC := none, outdoorTempC := none
    outdoorHumidity := none, equipment := some [("auxHeat1", true)], sensors := none }

/-- Offset store contents before the failing cycle: both offsets of th1
point at the earlier instant. -/
def exOffsets0 : OffsetState := ⟨[("th1", exT0)], [("th1", exT0)]⟩

/-- A single sink whose Write fails with a transport error. -/
def exFailingSinks : List SinkOutcome := [.transportErr (.msg "connection refused")]

/-- Two concrete device snapshots that agree on thermostat id and
collection time but differ in name, program, active events and provider
payload. -/
def exSnapA : DeviceSnapshot :=
  { type := "device_snapshot", collectedAt := exT1, thermostatID := "th1"
    thermostatName := "Living Room", program := none, eventsActive := none
    provider := none }

/-- Second snapshot of the pair, with every non-key field different. -/
def exSnapB : DeviceSnapshot :=
  { type := "device_snapshot", collectedAt := exT1, thermostatID := "th1"
    thermostatName := "Renamed Thermostat", program := some (.str "new program")
    eventsActive := some [.str "vacation hold"]
    provider := some [("ecobee", .str "payload")] }

/-- A sink model whose Open succeeds under any context. -/
def exSinkOk : SinkModel := ⟨"elasticsearch", fun _ => none⟩

/-- A base context without a deadline. -/
def exBaseCtx : Ctx := ⟨none⟩

/-- A concrete provider snapshot for the failing-write evaluation. -/
def exSnap0 : Snapshot := ⟨exRef, exT1, none, none⟩

/-- A concrete normalized runtime document. -/
def exRunDoc : Runtime5m := normalizeRuntimeOk exRow1 "ecobee"

/-- Consecutive pairs of normalized rows in one fetch, with the optional
carried-in predecessor: the pairs the scheduler loop compares. -/
def consecPairs (prevDoc : Option Runtime5m) (norm : List Runtime5m) :
    List (Runtime5m × Runtime5m) :=
  match prevDoc with
  | none => norm.zip norm.tail
  | some p => (p :: norm).zip norm

/-- The runtime_5m document the scheduler loop builds for one row. -/
def runtimeDocFor (row : RuntimeRow) (provider : String) : Doc :=
  let c := normalizeRuntimeOk row provider
  { id := c.thermostatID ++ ":" ++ formatTimestamp c.eventTime ++ ":" ++ c.type ++ ":" ++
      hashDocument (encodeRuntime5m c)
    type := "runtime_5m"
    body := encodeRuntime5m c }

/-! Shared lemmas. -/

/-- The offset scan of anyMatch finds the pattern exactly when it is an
infix of the scanned list. -/
theorem anyMatch_iff (s sub : List Char) : anyMatch s sub = true ↔ sub <:+: s := by
  induction s with
  | nil =>
    simp [anyMatch, List.isPrefixOf_iff_prefix]
  | cons a t ih =>
    simp only [anyMatch, Bool.or_eq_true, List.isPrefixOf_iff_prefix, ih]
    exact (@List.infix_cons_iff _ sub a t).symm

/-- The contains helper of pkg/retry decides exact substring presence. -/
theorem containsGo_iff (s sub : String) : containsGo s sub = true ↔ sub.data <:+: s.data := by
  unfold containsGo
  simp only [Bool.and_eq_true, Bool.or_eq_true, decide_eq_true_eq, beq_iff_eq]
  constructor
  · rintro ⟨hlen, heq | ⟨hlt, hmatch⟩⟩
    · subst heq; exact List.infix_refl _
    · exact (anyMatch_iff s.data sub.data).mp hmatch
  · intro h
    refine ⟨h.length_le, ?_⟩
    rcases eq_or_lt_of_le h.length_le with hl | hl
    · left
      apply String.ext
      exact (h.eq_of_length_le hl.ge).symm
    · right
      exact ⟨hl, (anyMatch_iff s.data sub.data).mpr h⟩

/-- The spec setpoint rule is the negation of the source's floatsEqual at
tolerance 0.1. -/
theorem setpointChangedSpec_eq (a b : Option ℚ) :
    setpointChangedSpec a b = !(floatsEqual a b (1 / 10)) := by
  match a, b with
  | none, none => rfl
  | none, some _ => rfl
  | some _, none => rfl
  | some x, some y =>
    simp only [setpointChangedSpec, floatsEqual]
    rcases lt_or_le (x - y) 0 with h | h
    · simp only [if_pos h, ← decide_not, not_lt, abs_of_neg h, ge_iff_le]
    · simp only [if_neg (not_lt.mpr h), ← decide_not, not_lt, abs_of_nonneg h, ge_iff_le]

/-- The source change detector agrees with the spec change predicate. -/
theorem hasStateChanged_eq_spec (a b : State) :
    hasStateChanged a b = specStateChanged a b := by
  unfold hasStateChanged specStateChanged
  rw [setpointChangedSpec_eq, setpointChangedSpec_eq]
  by_cases h1 : a.mode = b.mode
  · by_cases h2 : a.climate = b.climate
    · simp only [h1, h2, ne_eq, not_true_eq_false, if_false, bne_self_eq_false,
        Bool.false_or, ite_not]
      cases hfe : floatsEqual a.setHeatC b.setHeatC (1 / 10) <;>
        cases hfe2 : floatsEqual a.setCoolC b.setCoolC (1 / 10) <;> simp
    · simp [h1, h2, bne_iff_ne]
  · simp [h1, bne_iff_ne]

/-- Taking 2k characters of the hex rendering is rendering the first k
bytes. -/
theorem goHex_take (k : Nat) (l : List Nat) :
    (goHex l).take (2 * k) = goHex (l.take k) := by
  induction k generalizing l with
  | zero => simp [goHex]
  | succ n ih =>
    cases l with
    | nil => simp [goHex]
    | cons a t =>
      simp only [goHex, List.flatMap_cons, hexByte, List.take_succ_cons,
        Nat.mul_succ]
      simp only [List.cons_append, List.nil_append]
      rw [show 2 * n + 2 = (2 * n + 1) + 1 from rfl]
      simp only [List.take_succ_cons]
      exact congrArg (fun r => hexDigit (a / 16) :: hexDigit (a % 16) :: r) (ih t)

/-- When the first k attempts fail with retriable errors and attempt k
fails with a non-retriable one, the retry loop makes exactly k + 1 calls and
returns that error. -/
theorem doAux_stop (fn : Nat → Option GoErr) :
    ∀ (k rem attempt : Nat) (last : Option GoErr) (e : GoErr),
      k < rem →
      (∀ j, j < k → fn (attempt + j) ≠ none ∧ IsRetriable (fn (attempt + j)) = true) →
      fn (attempt + k) = some e → IsRetriable (some e) = false →
      doAux fn noCancel rem attempt last = (k + 1, some e) := by
  intro k
  induction k with
  | zero =>
    intro rem attempt last e hrem _ hk hnr
    match rem, hrem with
    | r + 1, _ =>
      simp only [doAux, noCancel, Bool.and_false, Bool.false_eq_true, if_false]
      rw [Nat.add_zero] at hk
      rw [hk]
      simp [hnr]
  | succ n ih =>
    intro rem attempt last e hrem h2 hk hnr
    match rem, hrem with
    | r + 1, hrem =>
      obtain ⟨hne, hretr⟩ := h2 0 (Nat.succ_pos n)
      rw [Nat.add_zero] at hne hretr
      obtain ⟨e0, he0⟩ := Option.ne_none_iff_exists'.mp hne
      rw [he0] at hretr
      simp only [doAux, noCancel, Bool.and_false, Bool.false_eq_true, if_false]
      have hrec : doAux fn noCancel r (attempt + 1) (some e0) = (n + 1, some e) := by
        apply ih r (attempt + 1) (some e0) e (Nat.lt_of_succ_lt_succ hrem)
        · intro j hj
          have := h2 (j + 1) (Nat.succ_lt_succ hj)
          rwa [show attempt + (j + 1) = attempt + 1 + j by omega] at this
        · rwa [show attempt + 1 + n = attempt + (n + 1) by omega]
        · exact hnr
      rw [he0]
      simp [hretr, hrec]

/-- When the waits before attempts 1..k-1 pass, the first k attempts fail
with retriable errors, and the context fires during the wait before attempt
k, the retry loop returns the cancelled outcome after k calls. -/
theorem doAux_cancel (fn : Nat → Option GoErr) (cancel : Nat → Bool) :
    ∀ (k rem attempt : Nat) (last : Option GoErr),
      1 ≤ k → k < rem →
      (∀ j, j < k → fn (attempt + j) ≠ none ∧ IsRetriable (fn (attempt + j)) = true) →
      (∀ j, j < k → attempt + j = 0 ∨ cancel (attempt + j) = false) →
      cancel (attempt + k) = true →
      doAux fn cancel rem attempt last = (k, some (.wrap "retry cancelled" .canceled)) := by
  intro k
  induction k with
  | zero => intro _ _ _ _ h1; omega
  | succ n ih =>
    intro rem attempt last h1 hrem h2 hw hc
    match rem, hrem with
    | r + 1, hrem =>
      obtain ⟨hne, hretr⟩ := h2 0 (Nat.succ_pos n)
      rw [Nat.add_zero] at hne hretr
      obtain ⟨e0, he0⟩ := Option.ne_none_iff_exists'.mp hne
      rw [he0] at hretr
      have hwait : (decide (attempt > 0) && cancel attempt) = false := by
        rcases hw 0 (Nat.succ_pos n) with h | h
        · rw [Nat.add_zero] at h
          simp [h]
        · rw [Nat.add_zero] at h
          simp [h]
      simp only [doAux, hwait, Bool.false_eq_true, if_false]
      rcases Nat.lt_or_ge n 1 with h1e | h1g
      · have hn : n = 0 := by omega
        subst hn
        match r, hrem with
        | r' + 1, _ =>
          have hc1 : cancel (attempt + 1) = true := by simpa using hc
          have hinner : doAux fn cancel (r' + 1) (attempt + 1) (some e0) =
              (0, some (GoErr.wrap "retry cancelled" GoErr.canceled)) := by
            simp only [doAux]
            rw [show (decide (attempt + 1 > 0) && cancel (attempt + 1)) = true by simp [hc1]]
            simp
          rw [he0]
          simp [hretr, hinner]
      · have hrec : doAux fn cancel r (attempt + 1) (some e0) =
            (n, some (.wrap "retry cancelled" .canceled)) := by
          apply ih r (attempt + 1) (some e0) (by omega) (by omega)
          · intro j hj
            have := h2 (j + 1) (Nat.succ_lt_succ hj)
            rwa [show attempt + (j + 1) = attempt + 1 + j by omega] at this
          · intro j hj
            have := hw (j + 1) (Nat.succ_lt_succ hj)
            rwa [show attempt + (j + 1) = attempt + 1 + j by omega] at this
          · rwa [show attempt + 1 + n = attempt + (n + 1) by omega]
        rw [he0]
        simp [hretr, hrec]

/-- C3: the retry engine classifies an error as retriable iff its message
contains, as a case-sensitive substring, one of exactly the six fragments
timeout, connection refused, connection reset, temporary failure, no such
host, TLS handshake timeout; a nil error is not retriable; and a
non-retriable error at attempt k (after k retriable failures) stops Do with
exactly k + 1 calls and that error as the outcome. -/
theorem C3_retriable_classification :
    (IsRetriable none = false) ∧
    (∀ e : GoErr, IsRetriable (some e) = true ↔
      ∃ m ∈ retriableMessages, m.data <:+: e.message.data) ∧
    (∀ (maxR : Nat) (fn : Nat → Option GoErr) (k : Nat) (e : GoErr),
      k ≤ maxR →
      (∀ j, j < k → fn j ≠ none ∧ IsRetriable (fn j) = true) →
      fn k = some e → IsRetriable (some e) = false →
      DoGo maxR noCancel fn = (k + 1, some e)) := by
  refine ⟨rfl, ?_, ?_⟩
  · intro e
    simp only [IsRetriable, List.any_eq_true]
    constructor
    · rintro ⟨m, hm, hc⟩
      exact ⟨m, hm, (containsGo_iff e.message m).mp hc⟩
    · rintro ⟨m, hm, hinf⟩
      exact ⟨m, hm, (containsGo_iff e.message m).mpr hinf⟩
  · intro maxR fn k e hk h2 hke hnr
    unfold DoGo
    apply doAux_stop fn k (maxR + 1) 0 none e (by omega)
    · intro j hj
      simpa using h2 j hj
    · simpa using hke
    · exact hnr

/-- C3 witness: with an operation whose first call fails with a retriable
message and whose second call fails non-retriably, Do makes exactly two
calls and returns the second error. -/
theorem C3_retriable_classification_witness :
    DoGo 3 noCancel fnStops = (2, some (.msg "invalid input")) :=
  C3_retriable_classification.2.2 3 fnStops 1 (.msg "invalid input")
    (by decide) (by decide) (by decide) (by decide)

/-- C7 counterexample: with the context cancelled during the wait before
attempt 1 after a connection refused failure, Do returns the outcome
wrapping context.Canceled, and the last underlying error connection refused
is nowhere in the returned error's unwrap chain. -/
theorem C7_counterexample :
    DoGo 3 cancelAt1 fnRefused = (1, some (.wrap "retry cancelled" .canceled)) ∧
    errInChain (.msg "connection refused") (.wrap "retry cancelled" .canceled) = false := by
  constructor
  · decide
  · decide

/-- C7 amended: when the cancellation handle fires during the wait before
attempt k (earlier waits passing and earlier attempts failing retriably),
Do returns after k calls a retry cancelled outcome wrapping the context's
cancellation error; the last underlying operation error is discarded, not
wrapped. -/
theorem C7_amended_cancellation :
    ∀ (maxR : Nat) (cancel : Nat → Bool) (fn : Nat → Option GoErr) (k : Nat),
      1 ≤ k → k ≤ maxR →
      (∀ j, j < k → fn j ≠ none ∧ IsRetriable (fn j) = true) →
      (∀ j, j < k → cancel j = false) →
      cancel k = true →
      DoGo maxR cancel fn = (k, some (.wrap "retry cancelled" .canceled)) := by
  intro maxR cancel fn k h1 hk h2 hw hc
  unfold DoGo
  apply doAux_cancel fn cancel k (maxR + 1) 0 none h1 (by omega)
  · intro j hj
    simpa using h2 j hj
  · intro j hj
    right
    simpa using hw j hj
  · simpa using hc

/-- C7 amended witness: cancellation during the wait before attempt 1
returns the cancelled outcome after a single call. -/
theorem C7_amended_cancellation_witness :
    DoGo 3 cancelAt1 fnRefused = (1, some (.wrap "retry cancelled" .canceled)) :=
  C7_amended_cancellation 3 cancelAt1 fnRefused 1
    (by decide) (by decide) (by decide) (by decide) (by decide)

/-- C9: the state-only kind inference follows the spec's ordered rules:
mode changed gives manual; else climate changed gives vacation when the new
climate is Away or Vacation and schedule otherwise; else a setpoint-only
change gives hold; else unknown. -/
theorem C9_kind_inference (prev current : State) :
    inferTransitionKind prev current = specInferKind prev current := by
  unfold inferTransitionKind specInferKind
  simp only [setpointChangedSpec_eq, List.mem_cons, List.mem_singleton,
    List.not_mem_nil, or_false, Bool.or_eq_true, Bool.not_eq_eq_eq_not,
    Bool.not_true]

/-- C5 counterexample: the provider mode eco is not in any mapping row, and
the normalized runtime_5m document emits it verbatim instead of off, so the
emitted mode is not restricted to the canonical set. -/
theorem C5_counterexample :
    (normalizeRuntimeOk exRowEco "ecobee").mode = "eco" ∧ "eco" ∉ canonicalModes := by
  constructor
  · decide
  · decide

/-- C5 amended: recognized inputs follow the mapping table (heat and
heating give heat; cool and cooling give cool; auto and automatic give
auto; off and disabled give off; the empty string gives off), and every
unrecognized provider string is lowercased and emitted verbatim rather
than mapped to off. -/
theorem C5_amended_mode_mapping (mode : String) :
    normalizeMode mode = specModeMap mode := by
  unfold normalizeMode specModeMap
  simp only [List.mem_cons, List.mem_singleton, List.not_mem_nil, or_false]

/-- C10: the device_snapshot identifier is a function of the thermostat id
and collection time only: two snapshots agreeing on those two fields get
the same identifier whatever their name, program, active events or
provider payload, so an upserting sink overwrites the earlier snapshot
with the later one. -/
theorem C10_snapshot_id_ignores_payload (d1 d2 : DeviceSnapshot)
    (hid : d1.thermostatID = d2.thermostatID)
    (hat : d1.collectedAt = d2.collectedAt) :
    GenerateDeviceSnapshotID (some d1) = GenerateDeviceSnapshotID (some d2) := by
  simp only [GenerateDeviceSnapshotID, hid, hat]

/-- C10 witness: two concrete snapshots sharing thermostat id and
collection time but differing in name, program, active events and provider
payload receive the same identifier. -/
theorem C10_snapshot_id_ignores_payload_witness :
    GenerateDeviceSnapshotID (some exSnapA) = GenerateDeviceSnapshotID (some exSnapB) :=
  C10_snapshot_id_ignores_payload exSnapA exSnapB rfl rfl

/-- C8: for every configured sink, CheckHealth carries a sink_<name> entry
produced by checkSink, and checkSink calls the sink's Open under a context
with a 5-second timeout, reporting fail exactly when that call errors and
pass exactly when it succeeds. -/
theorem C8_sink_check (baseCtx : Ctx) (providers : List ProviderModel)
    (sinks : List SinkModel) (s : SinkModel) (hs : s ∈ sinks) :
    ("sink_" ++ s.name, checkSink baseCtx s) ∈ CheckHealth baseCtx providers sinks ∧
    ((checkSink baseCtx s).status = "fail" ↔ (s.openResult (withTimeout baseCtx 5)).isSome) ∧
    ((checkSink baseCtx s).status = "pass" ↔ s.openResult (withTimeout baseCtx 5) = none) := by
  refine ⟨?_, ?_, ?_⟩
  · unfold CheckHealth
    exact List.mem_append_right _ (List.mem_map_of_mem _ hs)
  · unfold checkSink
    cases h : s.openResult (withTimeout baseCtx 5) <;> simp [h]
  · unfold checkSink
    cases h : s.openResult (withTimeout baseCtx 5) <;> simp [h]

/-- C8 witness: a configured sink whose Open succeeds appears in the health
checks with a pass status. -/
theorem C8_sink_check_witness :
    ("sink_" ++ exSinkOk.name, checkSink exBaseCtx exSinkOk) ∈
      CheckHealth exBaseCtx [] [exSinkOk] ∧
    ((checkSink exBaseCtx exSinkOk).status = "fail" ↔
      (exSinkOk.openResult (withTimeout exBaseCtx 5)).isSome) ∧
    ((checkSink exBaseCtx exSinkOk).status = "pass" ↔
      exSinkOk.openResult (withTimeout exBaseCtx 5) = none) :=
  C8_sink_check exBaseCtx [] [exSinkOk] exSinkOk (List.mem_singleton.mpr rfl)

/-- C4: the generated identifiers have the spec formats: runtime_5m gives
thermostat_id, event time as YYYY-MM-DDThh:mm:ssZ, the type tag and the
lowercase hex of the first 8 bytes (16 hex characters) of SHA-256 over the
canonical encoding of the whole document; transition gives thermostat_id,
event time and the hash over the prev and next states only; device_snapshot
gives thermostat_id and collection time with no hash; and generating an ID
twice for the same document value gives the same string. -/
theorem C4_id_formats :
    (∀ doc : Runtime5m, GenerateRuntime5mID (some doc) =
      .ok (doc.thermostatID ++ ":" ++ formatTimestamp doc.eventTime ++ ":" ++ doc.type ++ ":" ++
        String.mk (goHex ((sha256 (utf8Bytes (renderJson (encodeRuntime5m doc)))).take 8)))) ∧
    (∀ doc : Transition, GenerateTransitionID (some doc) =
      .ok (doc.thermostatID ++ ":" ++ formatTimestamp doc.eventTime ++ ":" ++
        String.mk (goHex ((sha256 (utf8Bytes (renderJson
          (.obj (sortPairs [("prev", encodeState doc.prev),
            ("next", encodeState doc.next)]))))).take 8)))) ∧
    (∀ doc : DeviceSnapshot, GenerateDeviceSnapshotID (some doc) =
      .ok (doc.thermostatID ++ ":" ++ formatTimestamp doc.collectedAt)) ∧
    (∀ d1 d2 : Runtime5m, d1 = d2 →
      GenerateRuntime5mID (some d1) = GenerateRuntime5mID (some d2)) := by
  refine ⟨?_, ?_, fun doc => rfl, fun d1 d2 h => by rw [h]⟩
  · intro doc
    show Except.ok (doc.thermostatID ++ ":" ++ formatTimestamp doc.eventTime ++ ":" ++
      doc.type ++ ":" ++ hashDocument (encodeRuntime5m doc)) = _
    unfold hashDocument
    rw [show (16 : Nat) = 2 * 8 from rfl, goHex_take]
  · intro doc
    show Except.ok (doc.thermostatID ++ ":" ++ formatTimestamp doc.eventTime ++ ":" ++
      hashTransition doc.prev doc.next) = _
    unfold hashTransition hashDocument
    rw [show (16 : Nat) = 2 * 8 from rfl, goHex_take]

/-- C4 witness: re-generating the identifier of the same concrete runtime
document yields the same string. -/
theorem C4_id_formats_witness :
    GenerateRuntime5mID (some exRunDoc) = GenerateRuntime5mID (some exRunDoc) :=
  C4_id_formats.2.2.2 exRunDoc exRunDoc rfl

/-- Every key of a map after a Go-style assignment is the assigned key or a
key already present. -/
theorem setAssoc_keys {α : Type} (k : String) (v : α) :
    ∀ (acc : List (String × α)) (k' : String),
      k' ∈ (setAssoc k v acc).map Prod.fst → k' = k ∨ k' ∈ acc.map Prod.fst := by
  intro acc
  induction acc with
  | nil =>
    intro k' h
    left
    simpa [setAssoc] using h
  | cons p rest ih =>
    obtain ⟨k0, v0⟩ := p
    intro k' h
    by_cases hp : k0 = k
    · simp only [setAssoc, if_pos hp, List.map_cons, List.mem_cons] at h
      rcases h with h1 | h1
      · right; simp [h1]
      · right; simp [h1]
    · simp only [setAssoc, if_neg hp, List.map_cons, List.mem_cons] at h
      rcases h with h1 | h1
      · right; simp [h1]
      · rcases ih k' h1 with h2 | h2
        · left; exact h2
        · right; simp [h2]

/-- Every key the equipment-normalization fold produces comes from the
accumulator or is the normalization of some input key. -/
theorem equipFold_keys :
    ∀ (l acc : List (String × Bool)) (k : String),
      k ∈ (l.foldl (fun acc p => setAssoc (normalizeEquipmentKey p.1) p.2 acc) acc).map Prod.fst →
      k ∈ acc.map Prod.fst ∨ ∃ k0 ∈ l.map Prod.fst, k = normalizeEquipmentKey k0 := by
  intro l
  induction l with
  | nil => intro acc k h; left; simpa using h
  | cons p rest ih =>
    intro acc k h
    simp only [List.foldl_cons] at h
    rcases ih (setAssoc (normalizeEquipmentKey p.1) p.2 acc) k h with h1 | h1
    · rcases setAssoc_keys (normalizeEquipmentKey p.1) p.2 acc k h1 with h2 | h2
      · right; exact ⟨p.1, by simp, h2⟩
      · left; exact h2
    · obtain ⟨k0, hk0, hk⟩ := h1
      right; exact ⟨k0, by simp [hk0], hk⟩

/-- C6 counterexample: a normalized runtime_5m document built from an
equipment map holding the unknown key auxHeat1 keeps that key, which is
outside the closed key set, so the equipment map is not restricted to the
closed set. -/
theorem C6_counterexample :
    (normalizeRuntimeOk exRowAux "ecobee").equipment = some [("auxHeat1", true)] ∧
    "auxHeat1" ∉ closedEquipmentKeys := by
  constructor
  · decide
  · decide

/-- C6 amended: every key of the normalized equipment map is the canonical
renaming of some provider key; the accepted spelling variants all rename
into the closed key set, but unknown provider keys are preserved verbatim;
and a key absent from an equipment map reads as false. -/
theorem C6_amended_equipment :
    (∀ (l : List (String × Bool)) (k : String),
      k ∈ ((normalizeEquipment (some l)).getD []).map Prod.fst →
      ∃ k0 ∈ l.map Prod.fst, k = normalizeEquipmentKey k0) ∧
    (∀ v ∈ equipmentVariants, normalizeEquipmentKey v ∈ closedEquipmentKeys) ∧
    (∀ (m : List (String × Bool)) (k : String),
      lookupAssoc m k = none → lookupBoolD m k = false) := by
  refine ⟨?_, by decide, ?_⟩
  · intro l k h
    simp only [normalizeEquipment, Option.getD_some] at h
    rcases equipFold_keys l [] k h with h1 | h1
    · simp at h1
    · exact h1
  · intro m k h
    simp [lookupBoolD, h]

/-- C6 amended witness: the unknown key auxHeat1 in the normalized map is
the renaming of an input key, the variant Fan renames into the closed set,
and a key absent from the empty map reads as false. -/
theorem C6_amended_equipment_witness :
    (∃ k0 ∈ ([("auxHeat1", true)] : List (String × Bool)).map Prod.fst,
      "auxHeat1" = normalizeEquipmentKey k0) ∧
    normalizeEquipmentKey "Fan" ∈ closedEquipmentKeys ∧
    lookupBoolD [] "fan" = false :=
  ⟨C6_amended_equipment.1 [("auxHeat1", true)] "auxHeat1" (by decide),
   C6_amended_equipment.2.1 "Fan" (by decide),
   C6_amended_equipment.2.2 [] "fan" rfl⟩

/-- One step of the scheduler's normalize-and-detect loop with no carried
predecessor: the first row contributes its runtime document only. -/
theorem buildRuntimeDocs_cons_none (ref : ThermostatRef) (provider : String)
    (row : RuntimeRow) (rest : List RuntimeRow) :
    buildRuntimeDocs ref provider (row :: rest) none =
      runtimeDocFor row provider ::
        buildRuntimeDocs ref provider rest (some (normalizeRuntimeOk row provider)) := rfl

/-- One step of the scheduler's normalize-and-detect loop with a carried
predecessor: the row contributes its runtime document and, when the state
changed, one transition document. -/
theorem buildRuntimeDocs_cons_some (ref : ThermostatRef) (provider : String)
    (row : RuntimeRow) (rest : List RuntimeRow) (p : Runtime5m) :
    buildRuntimeDocs ref provider (row :: rest) (some p) =
      runtimeDocFor row provider ::
        ((if hasStateChanged (stateOfRuntime p) (stateOfRuntime (normalizeRuntimeOk row provider)) then
            transitionDocFor ref provider p (normalizeRuntimeOk row provider)
          else []) ++
         buildRuntimeDocs ref provider rest (some (normalizeRuntimeOk row provider))) := rfl

/-- A cons with a runtime_5m document drops out of the transition filter. -/
theorem filter_trans_cons_runtime (d : Doc) (l : List Doc) (h : d.type = "runtime_5m") :
    (d :: l).filter (fun x => x.type == "transition") =
      l.filter (fun x => x.type == "transition") := by
  rw [List.filter_cons_of_neg]
  simp [h]

/-- Prepending a pair to the carried list shifts the predecessor. -/
theorem consecPairs_some_cons (p c : Runtime5m) (m : List Runtime5m) :
    consecPairs (some p) (c :: m) = (p, c) :: consecPairs (some c) m := rfl

/-- A transition document batch survives the transition filter. -/
theorem transitionDocFor_filter (ref : ThermostatRef) (provider : String) (a b : Runtime5m) :
    (transitionDocFor ref provider a b).filter (fun d => d.type == "transition") =
      transitionDocFor ref provider a b := rfl

/-- The transition documents among the scheduler's batch are exactly one
per consecutive pair of normalized rows whose states differ under the spec
change predicate. -/
theorem buildRuntimeDocs_transitions (ref : ThermostatRef) (provider : String) :
    ∀ (rows : List RuntimeRow) (prevDoc : Option Runtime5m),
      (buildRuntimeDocs ref provider rows prevDoc).filter (fun d => d.type == "transition") =
        ((consecPairs prevDoc (rows.map (fun r => normalizeRuntimeOk r provider))).filter
          (fun q => specStateChanged (stateOfRuntime q.1) (stateOfRuntime q.2))).flatMap
          (fun q => transitionDocFor ref provider q.1 q.2) := by
  intro rows
  induction rows with
  | nil => intro prevDoc; cases prevDoc <;> rfl
  | cons row rest ih =>
    intro prevDoc
    cases prevDoc with
    | none =>
      rw [buildRuntimeDocs_cons_none, filter_trans_cons_runtime _ _ rfl]
      exact ih (some (normalizeRuntimeOk row provider))
    | some p =>
      rw [buildRuntimeDocs_cons_some, filter_trans_cons_runtime _ _ rfl,
        List.filter_append, hasStateChanged_eq_spec]
      simp only [List.map_cons, consecPairs_some_cons]
      by_cases hch : specStateChanged (stateOfRuntime p)
          (stateOfRuntime (normalizeRuntimeOk row provider)) = true
      · rw [if_pos hch, transitionDocFor_filter,
          ih (some (normalizeRuntimeOk row provider))]
        simp [List.filter_cons, hch]
      · have hch2 : specStateChanged (stateOfRuntime p)
            (stateOfRuntime (normalizeRuntimeOk row provider)) = false := by
          simpa using hch
        rw [if_neg hch, List.filter_nil, List.nil_append,
          ih (some (normalizeRuntimeOk row provider))]
        simp [List.filter_cons, hch2]

/-- C2: within one fetch the scheduler emits a transition document for a
pair of consecutive normalized rows exactly when the spec change predicate
holds on their state tuples (mode differs, climate differs, or either
setpoint differs by at least 0.1 degrees with nil against value a change
and nil against nil no change); each changed pair yields exactly one
transition document. -/
theorem C2_transition_emission :
    (∀ (ref : ThermostatRef) (provider : String) (rows : List RuntimeRow),
      (buildRuntimeDocs ref provider rows none).filter (fun d => d.type == "transition") =
        (((rows.map (fun r => normalizeRuntimeOk r provider)).zip
            (rows.map (fun r => normalizeRuntimeOk r provider)).tail).filter
          (fun q => specStateChanged (stateOfRuntime q.1) (stateOfRuntime q.2))).flatMap
          (fun q => transitionDocFor ref provider q.1 q.2)) ∧
    (∀ (ref : ThermostatRef) (provider : String) (a b : Runtime5m),
      (transitionDocFor ref provider a b).length = 1) := by
  constructor
  · intro ref provider rows
    exact buildRuntimeDocs_transitions ref provider rows none
  · intro ref provider a b
    rfl

/-- C1 evaluation at the failing input: with one new runtime row and a
single sink whose Write returns a transport error, writeToAllSinks records
the sink error yet returns a nil error, fetchAndProcessRuntime reports
success and advances the runtime offset of th1 from the old watermark to
the new row's event time; the snapshot path behaves the same way.  The
claim (and the repository's own docs) require the offsets to be unchanged
on write failure. -/
theorem C1_offset_advances_on_failed_write :
    getLastRuntimeTime exOffsets0 "th1" = exT0 ∧
    exT0 ≠ exT1 ∧
    writeToAllSinks exFailingSinks (buildRuntimeDocs exRef "ecobee" [exRow1] none) =
      ([.sinkError], none) ∧
    (fetchAndProcessRuntime exRef "ecobee" (.ok [exRow1]) exFailingSinks exOffsets0).2 = none ∧
    getLastRuntimeTime
      (fetchAndProcessRuntime exRef "ecobee" (.ok [exRow1]) exFailingSinks exOffsets0).1
      "th1" = exT1 ∧
    getLastSnapshotTime exOffsets0 "th1" = exT0 ∧
    (fetchAndProcessSnapshot exRef "ecobee" (.ok exSnap0) exFailingSinks exOffsets0).2 = none ∧
    getLastSnapshotTime
      (fetchAndProcessSnapshot exRef "ecobee" (.ok exSnap0) exFailingSinks exOffsets0).1
      "th1" = exT1 := by
  refine ⟨rfl, by decide, rfl, rfl, rfl, rfl, rfl, rfl⟩

end TTR
